import Mathlib

/-!
Verification of the Vita3K System Module Load-Policy Resolver
(`vita3k/module/src/load_module.cpp`): the decision function
`is_lle_module` choosing low-level emulation (LLE) versus high-level
emulation (HLE) for a system module, and the loaded-module tracker
`is_module_loaded`.

The resolver's own logic is embedded directly from the source.  The
surrounding data (the `SceSysmoduleModuleId` enumeration, the
`sysmodule_paths` registry and the `ModulesMode` enumeration) is defined
in headers outside the excerpt and is modelled from the spec where
needed; the registry is passed as an explicit parameter, as the spec
treats it as an external lookup table.
-/

/-- Modelled from the spec: `ModuleId` is an "opaque enumerated
identifier" (the `SceSysmoduleModuleId` enum itself is defined in a
header outside the excerpt).  We represent it by the underlying numeric
code of the C enum; only identity of enumerants matters to the
resolver. -/
abbrev SceSysmoduleModuleId := Nat

/-- Modelled from the spec: distinct enumerant codes for the eleven
modules named in the source's `auto_lle_modules` initializer list. -/
def SCE_SYSMODULE_SAS : SceSysmoduleModuleId := 1

def SCE_SYSMODULE_PGF : SceSysmoduleModuleId := 2

def SCE_SYSMODULE_SYSTEM_GESTURE : SceSysmoduleModuleId := 3

def SCE_SYSMODULE_XML : SceSysmoduleModuleId := 4

def SCE_SYSMODULE_MP4 : SceSysmoduleModuleId := 5

def SCE_SYSMODULE_ATRAC : SceSysmoduleModuleId := 6

def SCE_SYSMODULE_AVPLAYER : SceSysmoduleModuleId := 7

def SCE_SYSMODULE_JSON : SceSysmoduleModuleId := 8

def SCE_SYSMODULE_HTTP : SceSysmoduleModuleId := 9

def SCE_SYSMODULE_SSL : SceSysmoduleModuleId := 10

def SCE_SYSMODULE_HTTPS : SceSysmoduleModuleId := 11

/-- Modelled from the spec: `ModulesMode` is the three-way global mode
setting {AUTOMATIC, MANUAL, mixed}; the enum is defined in
`config/state.h`, outside the excerpt.  `AUTO_MANUAL` is the mixed
value, "neither pure AUTOMATIC nor pure MANUAL". -/
inductive ModulesMode where
  | AUTOMATIC
  | AUTO_MANUAL
  | MANUAL
deriving DecidableEq, Repr

/-- The per-profile configuration fields read by the resolver:
`modules_mode` and the user allow-list `lle_modules` (an ordered
sequence of path strings). -/
structure CurrentConfig where
  modules_mode : ModulesMode
  lle_modules : List String
deriving DecidableEq, Repr

/-- The `cfg` member of the emulator state, exposing
`current_config`. -/
structure Config where
  current_config : CurrentConfig
deriving DecidableEq, Repr

/-- The slice of `EmuEnvState` read by `is_lle_module`. -/
structure EmuEnvState where
  cfg : Config
deriving DecidableEq, Repr

/-- The slice of `KernelState` read by `is_module_loaded`: the runtime
sequence of modules loaded so far (`loaded_sysmodules`). -/
structure KernelState where
  loaded_sysmodules : List SceSysmoduleModuleId
deriving DecidableEq, Repr

/-- The hardcoded initializer list `auto_lle_modules` from the body of
`is_lle_module`: "Current modules works for loading". -/
def auto_lle_modules : List SceSysmoduleModuleId :=
  [SCE_SYSMODULE_SAS,
    SCE_SYSMODULE_PGF,
    SCE_SYSMODULE_SYSTEM_GESTURE,
    SCE_SYSMODULE_XML,
    SCE_SYSMODULE_MP4,
    SCE_SYSMODULE_ATRAC,
    SCE_SYSMODULE_AVPLAYER,
    SCE_SYSMODULE_JSON,
    SCE_SYSMODULE_HTTP,
    SCE_SYSMODULE_SSL,
    SCE_SYSMODULE_HTTPS]

/-- `is_lle_module` from `load_module.cpp`.  The Module Path Registry
`sysmodule_paths` is external data defined outside the excerpt, so it is
passed as an explicit lookup parameter (`paths_for(module_id) -> ordered
sequence of strings`).  The body mirrors the C control flow: look up the
paths, and inside the `have_paths` guard run the two independently gated
checks with early `return true`, falling through to `return false`. -/
def is_lle_module (sysmodule_paths : SceSysmoduleModuleId → List String)
    (module_id : SceSysmoduleModuleId) (emuenv : EmuEnvState) : Bool :=
  let paths := sysmodule_paths module_id
  let have_paths := !paths.isEmpty
  if have_paths then
    if emuenv.cfg.current_config.modules_mode != ModulesMode.MANUAL
        && auto_lle_modules.contains module_id then
      true
    else if emuenv.cfg.current_config.modules_mode != ModulesMode.AUTOMATIC
        && paths.any (fun path => emuenv.cfg.current_config.lle_modules.contains path) then
      true
    else
      false
  else
    false

/-- `is_module_loaded` from `load_module.cpp`: membership scan of
`kernel.loaded_sysmodules`. -/
def is_module_loaded (kernel : KernelState) (module_id : SceSysmoduleModuleId) : Bool :=
  kernel.loaded_sysmodules.contains module_id

/-- Characterization of `is_lle_module` as a proposition: true exactly
when the path set is non-empty and either gated check fires. -/
theorem is_lle_module_iff (sysmodule_paths : SceSysmoduleModuleId → List String)
    (module_id : SceSysmoduleModuleId) (emuenv : EmuEnvState) :
    is_lle_module sysmodule_paths module_id emuenv = true ↔
      (sysmodule_paths module_id ≠ [] ∧
        ((emuenv.cfg.current_config.modules_mode ≠ ModulesMode.MANUAL
            ∧ module_id ∈ auto_lle_modules)
          ∨ (emuenv.cfg.current_config.modules_mode ≠ ModulesMode.AUTOMATIC
              ∧ ∃ path ∈ sysmodule_paths module_id,
                  path ∈ emuenv.cfg.current_config.lle_modules))) := by
  simp only [is_lle_module]
  by_cases hp : sysmodule_paths module_id = []
  · simp [hp]
  · simp [hp, List.isEmpty_iff, List.any_eq_true, List.elem_iff,
      Bool.and_eq_true, bne_iff_ne, decide_eq_true_iff]

/-- C1: for every module_id whose path set is empty, `is_lle_module`
returns false, for every mode and every content of the user allow-list,
even if the module_id is a member of the automatic-LLE set. -/
theorem c1_empty_paths_never_lle (sysmodule_paths : SceSysmoduleModuleId → List String)
    (module_id : SceSysmoduleModuleId) (emuenv : EmuEnvState)
    (h : sysmodule_paths module_id = []) :
    is_lle_module sysmodule_paths module_id emuenv = false := by
  simp [is_lle_module, h]

/-- Witness for C1: the SSL module (a member of the automatic-LLE set)
with an empty path set, mode AUTOMATIC, its path even present in the
allow-list: the resolver still answers false. -/
theorem c1_empty_paths_never_lle_witness :
    (fun _ : SceSysmoduleModuleId => ([] : List String)) SCE_SYSMODULE_SSL = [] ∧
      is_lle_module (fun _ => []) SCE_SYSMODULE_SSL
        ⟨⟨⟨ModulesMode.AUTOMATIC, ["vs0/sys/external/libssl.suprx"]⟩⟩⟩ = false :=
  ⟨rfl, c1_empty_paths_never_lle (fun _ => []) SCE_SYSMODULE_SSL
    ⟨⟨⟨ModulesMode.AUTOMATIC, ["vs0/sys/external/libssl.suprx"]⟩⟩⟩ rfl⟩

/-- C2: a module in the automatic-LLE set with a non-empty path set is
resolved to LLE whenever the mode is not MANUAL, whatever the
allow-list holds. -/
theorem c2_auto_module_true_when_not_manual
    (sysmodule_paths : SceSysmoduleModuleId → List String)
    (module_id : SceSysmoduleModuleId) (emuenv : EmuEnvState)
    (hauto : module_id ∈ auto_lle_modules)
    (hpaths : sysmodule_paths module_id ≠ [])
    (hmode : emuenv.cfg.current_config.modules_mode ≠ ModulesMode.MANUAL) :
    is_lle_module sysmodule_paths module_id emuenv = true := by
  rw [is_lle_module_iff]
  exact ⟨hpaths, Or.inl ⟨hmode, hauto⟩⟩

/-- Witness for C2: the spec's scenario — SSL module, path set
["vs0/sys/external/libssl.suprx"], mode AUTOMATIC, empty allow-list —
resolves to true. -/
theorem c2_auto_module_true_when_not_manual_witness :
    SCE_SYSMODULE_SSL ∈ auto_lle_modules ∧
      (fun _ : SceSysmoduleModuleId => ["vs0/sys/external/libssl.suprx"]) SCE_SYSMODULE_SSL ≠ [] ∧
      is_lle_module (fun _ => ["vs0/sys/external/libssl.suprx"]) SCE_SYSMODULE_SSL
        ⟨⟨⟨ModulesMode.AUTOMATIC, []⟩⟩⟩ = true :=
  ⟨by decide, by simp,
    c2_auto_module_true_when_not_manual (fun _ => ["vs0/sys/external/libssl.suprx"])
      SCE_SYSMODULE_SSL ⟨⟨⟨ModulesMode.AUTOMATIC, []⟩⟩⟩
      (by decide) (by simp) (by decide)⟩

/-- C3: a module outside the automatic-LLE set with a non-empty path
set is resolved to LLE iff the mode is not AUTOMATIC and at least one
of its paths appears in the user allow-list. -/
theorem c3_nonauto_module_iff_allowlist
    (sysmodule_paths : SceSysmoduleModuleId → List String)
    (module_id : SceSysmoduleModuleId) (emuenv : EmuEnvState)
    (hnauto : module_id ∉ auto_lle_modules)
    (hpaths : sysmodule_paths module_id ≠ []) :
    (is_lle_module sysmodule_paths module_id emuenv = true ↔
      (emuenv.cfg.current_config.modules_mode ≠ ModulesMode.AUTOMATIC ∧
        ∃ path ∈ sysmodule_paths module_id,
          path ∈ emuenv.cfg.current_config.lle_modules)) := by
  rw [is_lle_module_iff]
  simp [hnauto, hpaths]

/-- Witness for C3: the spec's scenario — a non-auto module (code 100)
with path "vs0/sys/external/libfoo.suprx", mode MANUAL, allow-list
containing that path. -/
theorem c3_nonauto_module_iff_allowlist_witness :
    (100 : SceSysmoduleModuleId) ∉ auto_lle_modules ∧
      (fun _ : SceSysmoduleModuleId => ["vs0/sys/external/libfoo.suprx"]) 100 ≠ [] ∧
      (is_lle_module (fun _ => ["vs0/sys/external/libfoo.suprx"]) 100
          ⟨⟨⟨ModulesMode.MANUAL, ["vs0/sys/external/libfoo.suprx"]⟩⟩⟩ = true ↔
        ((⟨⟨⟨ModulesMode.MANUAL, ["vs0/sys/external/libfoo.suprx"]⟩⟩⟩ : EmuEnvState).cfg.current_config.modules_mode ≠ ModulesMode.AUTOMATIC ∧
          ∃ path ∈ (fun _ : SceSysmoduleModuleId => ["vs0/sys/external/libfoo.suprx"]) 100,
            path ∈ (⟨⟨⟨ModulesMode.MANUAL, ["vs0/sys/external/libfoo.suprx"]⟩⟩⟩ : EmuEnvState).cfg.current_config.lle_modules)) :=
  ⟨by decide, by simp,
    c3_nonauto_module_iff_allowlist (fun _ => ["vs0/sys/external/libfoo.suprx"]) 100
      ⟨⟨⟨ModulesMode.MANUAL, ["vs0/sys/external/libfoo.suprx"]⟩⟩⟩ (by decide) (by simp)⟩

/-- C4: in mixed mode (neither AUTOMATIC nor MANUAL), a module with a
non-empty path set is resolved to LLE iff it is in the automatic-LLE
set or one of its paths appears in the allow-list: the inclusive or of
the two independently gated checks. -/
theorem c4_mixed_mode_inclusive_or
    (sysmodule_paths : SceSysmoduleModuleId → List String)
    (module_id : SceSysmoduleModuleId) (emuenv : EmuEnvState)
    (hna : emuenv.cfg.current_config.modules_mode ≠ ModulesMode.AUTOMATIC)
    (hnm : emuenv.cfg.current_config.modules_mode ≠ ModulesMode.MANUAL)
    (hpaths : sysmodule_paths module_id ≠ []) :
    (is_lle_module sysmodule_paths module_id emuenv = true ↔
      (module_id ∈ auto_lle_modules ∨
        ∃ path ∈ sysmodule_paths module_id,
          path ∈ emuenv.cfg.current_config.lle_modules)) := by
  rw [is_lle_module_iff]
  simp [hna, hnm, hpaths]

/-- Witness for C4: mixed mode, the SAS module with its path absent
from the allow-list is still resolved to LLE via automatic-set
membership. -/
theorem c4_mixed_mode_inclusive_or_witness :
    (⟨⟨⟨ModulesMode.AUTO_MANUAL, []⟩⟩⟩ : EmuEnvState).cfg.current_config.modules_mode ≠ ModulesMode.AUTOMATIC ∧
      (⟨⟨⟨ModulesMode.AUTO_MANUAL, []⟩⟩⟩ : EmuEnvState).cfg.current_config.modules_mode ≠ ModulesMode.MANUAL ∧
      (fun _ : SceSysmoduleModuleId => ["vs0/sys/external/libsas.suprx"]) SCE_SYSMODULE_SAS ≠ [] ∧
      (is_lle_module (fun _ => ["vs0/sys/external/libsas.suprx"]) SCE_SYSMODULE_SAS
          ⟨⟨⟨ModulesMode.AUTO_MANUAL, []⟩⟩⟩ = true ↔
        (SCE_SYSMODULE_SAS ∈ auto_lle_modules ∨
          ∃ path ∈ (fun _ : SceSysmoduleModuleId => ["vs0/sys/external/libsas.suprx"]) SCE_SYSMODULE_SAS,
            path ∈ (⟨⟨⟨ModulesMode.AUTO_MANUAL, []⟩⟩⟩ : EmuEnvState).cfg.current_config.lle_modules)) :=
  ⟨by decide, by decide, by simp,
    c4_mixed_mode_inclusive_or (fun _ => ["vs0/sys/external/libsas.suprx"]) SCE_SYSMODULE_SAS
      ⟨⟨⟨ModulesMode.AUTO_MANUAL, []⟩⟩⟩ (by decide) (by decide) (by simp)⟩


/-- C5: `is_lle_module` is total and boolean-valued — in this embedding
it is a total Lean function into `Bool`.  The substantive part of the
claim concerns the Module Path Registry, whose definition lies outside
the excerpt; per the spec's boundary contract the registry yields "empty
sequence if unknown".  Modelled from the spec: any registry that yields
`[]` for every module_id outside the recognized catalog makes the
resolver answer false on every unrecognized module_id, under every
configuration, rather than failing. -/
theorem c5_unrecognized_resolves_false (catalog : List SceSysmoduleModuleId)
    (sysmodule_paths : SceSysmoduleModuleId → List String)
    (hreg : ∀ mid, mid ∉ catalog → sysmodule_paths mid = [])
    (module_id : SceSysmoduleModuleId) (hun : module_id ∉ catalog)
    (emuenv : EmuEnvState) :
    sysmodule_paths module_id = [] ∧
      is_lle_module sysmodule_paths module_id emuenv = false := by
  have h := hreg module_id hun
  exact ⟨h, by simp [is_lle_module, h]⟩

/-- Witness for C5: a catalog of the eleven known codes, a registry
empty outside it, and the unrecognized code 999 under mixed mode with a
populated allow-list. -/
theorem c5_unrecognized_resolves_false_witness :
    (∀ mid, mid ∉ auto_lle_modules →
      (fun m : SceSysmoduleModuleId => if m ∈ auto_lle_modules then ["p"] else []) mid = []) ∧
      (999 : SceSysmoduleModuleId) ∉ auto_lle_modules ∧
      ((fun m : SceSysmoduleModuleId => if m ∈ auto_lle_modules then ["p"] else []) 999 = [] ∧
        is_lle_module (fun m => if m ∈ auto_lle_modules then ["p"] else []) 999
          ⟨⟨⟨ModulesMode.AUTO_MANUAL, ["p"]⟩⟩⟩ = false) :=
  ⟨fun _ h => by simp [h], by decide,
    c5_unrecognized_resolves_false auto_lle_modules
      (fun m => if m ∈ auto_lle_modules then ["p"] else [])
      (fun _ h => by simp [h]) 999 (by decide)
      ⟨⟨⟨ModulesMode.AUTO_MANUAL, ["p"]⟩⟩⟩⟩

/-- C6: `is_module_loaded` is true exactly on members of
`loaded_sysmodules`; consequently it is false on the empty set and true
immediately after the kernel appends that module_id.  Being a plain
function of the kernel state, the query mutates nothing. -/
theorem c6_loaded_iff_member (kernel : KernelState) (module_id : SceSysmoduleModuleId) :
    (is_module_loaded kernel module_id = true ↔
        module_id ∈ kernel.loaded_sysmodules) ∧
      is_module_loaded ⟨[]⟩ module_id = false ∧
      is_module_loaded ⟨kernel.loaded_sysmodules ++ [module_id]⟩ module_id = true := by
  refine ⟨?_, ?_, ?_⟩ <;> simp [is_module_loaded, List.elem_iff]

/-- C7: the automatic-LLE set is exactly the eleven listed modules.  It
is a closed constant of the program: `auto_lle_modules` takes no
configuration or user input. -/
theorem c7_auto_lle_set_exact (module_id : SceSysmoduleModuleId) :
    module_id ∈ auto_lle_modules ↔
      (module_id = SCE_SYSMODULE_SAS ∨
        module_id = SCE_SYSMODULE_PGF ∨
        module_id = SCE_SYSMODULE_SYSTEM_GESTURE ∨
        module_id = SCE_SYSMODULE_XML ∨
        module_id = SCE_SYSMODULE_MP4 ∨
        module_id = SCE_SYSMODULE_ATRAC ∨
        module_id = SCE_SYSMODULE_AVPLAYER ∨
        module_id = SCE_SYSMODULE_JSON ∨
        module_id = SCE_SYSMODULE_HTTP ∨
        module_id = SCE_SYSMODULE_SSL ∨
        module_id = SCE_SYSMODULE_HTTPS) := by
  simp [auto_lle_modules]

/-- C8: both queries are deterministic: identical inputs (module_id,
configuration, registry, loaded set) give identical boolean results.
Purity — that neither call changes its inputs — is structural in this
embedding: both are functions from their inputs to `Bool`. -/
theorem c8_deterministic
    (p1 p2 : SceSysmoduleModuleId → List String)
    (m1 m2 : SceSysmoduleModuleId) (e1 e2 : EmuEnvState)
    (k1 k2 : KernelState)
    (hp : p1 = p2) (hm : m1 = m2) (he : e1 = e2) (hk : k1 = k2) :
    is_lle_module p1 m1 e1 = is_lle_module p2 m2 e2 ∧
      is_module_loaded k1 m1 = is_module_loaded k2 m2 := by
  subst hp hm he hk
  exact ⟨rfl, rfl⟩

/-- Witness for C8: two textually identical calls at concrete inputs. -/
theorem c8_deterministic_witness :
    is_lle_module (fun _ => ["p"]) SCE_SYSMODULE_SAS ⟨⟨⟨ModulesMode.MANUAL, ["p"]⟩⟩⟩ =
        is_lle_module (fun _ => ["p"]) SCE_SYSMODULE_SAS ⟨⟨⟨ModulesMode.MANUAL, ["p"]⟩⟩⟩ ∧
      is_module_loaded ⟨[SCE_SYSMODULE_SAS]⟩ SCE_SYSMODULE_SAS =
        is_module_loaded ⟨[SCE_SYSMODULE_SAS]⟩ SCE_SYSMODULE_SAS :=
  c8_deterministic (fun _ => ["p"]) (fun _ => ["p"]) SCE_SYSMODULE_SAS SCE_SYSMODULE_SAS
    ⟨⟨⟨ModulesMode.MANUAL, ["p"]⟩⟩⟩ ⟨⟨⟨ModulesMode.MANUAL, ["p"]⟩⟩⟩
    ⟨[SCE_SYSMODULE_SAS]⟩ ⟨[SCE_SYSMODULE_SAS]⟩ rfl rfl rfl rfl

/-- C9: in MANUAL mode, membership in the automatic-LLE set confers
nothing: such a module (with non-empty path set) is resolved to LLE iff
one of its paths appears in the user allow-list, like any other
module. -/
theorem c9_manual_mode_ignores_auto_set
    (sysmodule_paths : SceSysmoduleModuleId → List String)
    (module_id : SceSysmoduleModuleId) (emuenv : EmuEnvState)
    (hauto : module_id ∈ auto_lle_modules)
    (hpaths : sysmodule_paths module_id ≠ [])
    (hmode : emuenv.cfg.current_config.modules_mode = ModulesMode.MANUAL) :
    (is_lle_module sysmodule_paths module_id emuenv = true ↔
      ∃ path ∈ sysmodule_paths module_id,
        path ∈ emuenv.cfg.current_config.lle_modules) := by
  rw [is_lle_module_iff]
  simp [hmode, hpaths]

/-- Witness for C9: the SSL module (member of the automatic set) in
MANUAL mode with its path in the allow-list. -/
theorem c9_manual_mode_ignores_auto_set_witness :
    SCE_SYSMODULE_SSL ∈ auto_lle_modules ∧
      (fun _ : SceSysmoduleModuleId => ["vs0/sys/external/libssl.suprx"]) SCE_SYSMODULE_SSL ≠ [] ∧
      (⟨⟨⟨ModulesMode.MANUAL, ["vs0/sys/external/libssl.suprx"]⟩⟩⟩ : EmuEnvState).cfg.current_config.modules_mode = ModulesMode.MANUAL ∧
      (is_lle_module (fun _ => ["vs0/sys/external/libssl.suprx"]) SCE_SYSMODULE_SSL
          ⟨⟨⟨ModulesMode.MANUAL, ["vs0/sys/external/libssl.suprx"]⟩⟩⟩ = true ↔
        ∃ path ∈ (fun _ : SceSysmoduleModuleId => ["vs0/sys/external/libssl.suprx"]) SCE_SYSMODULE_SSL,
          path ∈ (⟨⟨⟨ModulesMode.MANUAL, ["vs0/sys/external/libssl.suprx"]⟩⟩⟩ : EmuEnvState).cfg.current_config.lle_modules) :=
  ⟨by decide, by simp, rfl,
    c9_manual_mode_ignores_auto_set (fun _ => ["vs0/sys/external/libssl.suprx"])
      SCE_SYSMODULE_SSL ⟨⟨⟨ModulesMode.MANUAL, ["vs0/sys/external/libssl.suprx"]⟩⟩⟩
      (by decide) (by simp) rfl⟩

/-- C10: `is_lle_module` is monotone in the user allow-list — growing
the allow-list never turns a true result false — and the result depends
only on which entries are present: allow-lists with the same members
(whatever their order or multiplicity) give equal results. -/
theorem c10_allowlist_monotone
    (sysmodule_paths : SceSysmoduleModuleId → List String)
    (module_id : SceSysmoduleModuleId) (mode : ModulesMode)
    (l1 l2 : List String) (hsub : ∀ p, p ∈ l1 → p ∈ l2) :
    (is_lle_module sysmodule_paths module_id ⟨⟨⟨mode, l1⟩⟩⟩ = true →
        is_lle_module sysmodule_paths module_id ⟨⟨⟨mode, l2⟩⟩⟩ = true) ∧
      ((∀ p, p ∈ l2 → p ∈ l1) →
        is_lle_module sysmodule_paths module_id ⟨⟨⟨mode, l1⟩⟩⟩ =
          is_lle_module sysmodule_paths module_id ⟨⟨⟨mode, l2⟩⟩⟩) := by
  have key : ∀ la lb : List String, (∀ p, p ∈ la → p ∈ lb) →
      is_lle_module sysmodule_paths module_id ⟨⟨⟨mode, la⟩⟩⟩ = true →
      is_lle_module sysmodule_paths module_id ⟨⟨⟨mode, lb⟩⟩⟩ = true := by
    intro la lb hab h
    rw [is_lle_module_iff] at h ⊢
    obtain ⟨hp, h⟩ := h
    refine ⟨hp, ?_⟩
    rcases h with h | ⟨hm, p, hp1, hp2⟩
    · exact Or.inl h
    · exact Or.inr ⟨hm, p, hp1, hab p hp2⟩
  refine ⟨key l1 l2 hsub, fun hsup => ?_⟩
  rw [Bool.eq_iff_iff]
  exact ⟨key l1 l2 hsub, key l2 l1 hsup⟩

/-- Witness for C10: allow-list ["a"] grown to ["a", "b"] for a
non-auto module in MANUAL mode; a duplicated permutation gives the
same result. -/
theorem c10_allowlist_monotone_witness :
    (∀ p, p ∈ ["a"] → p ∈ ["a", "b"]) ∧
      ((is_lle_module (fun _ => ["a"]) 100 ⟨⟨⟨ModulesMode.MANUAL, ["a"]⟩⟩⟩ = true →
          is_lle_module (fun _ => ["a"]) 100 ⟨⟨⟨ModulesMode.MANUAL, ["a", "b"]⟩⟩⟩ = true) ∧
        ((∀ p, p ∈ ["a", "b"] → p ∈ ["a"]) →
          is_lle_module (fun _ => ["a"]) 100 ⟨⟨⟨ModulesMode.MANUAL, ["a"]⟩⟩⟩ =
            is_lle_module (fun _ => ["a"]) 100 ⟨⟨⟨ModulesMode.MANUAL, ["a", "b"]⟩⟩⟩)) :=
  ⟨by simp,
    c10_allowlist_monotone (fun _ => ["a"]) 100 ModulesMode.MANUAL ["a"] ["a", "b"]
      (by simp)⟩
